import Mathlib

-- Verification development for the arcanoid repository (src/src/main.cpp).
-- The game code is shallowly embedded over the rationals: every float of the
-- source is modelled as a rational number, so the algebraic structure of the
-- clamping, collision and reflection logic is captured exactly (rounding of
-- IEEE floats is outside the model).  Pure functions of the source become Lean
-- functions; the mutable objects (grid, ball, application) become explicit
-- state-passing functions.  GPU and audio side effects are out of scope; the
-- one observable audio event the claims mention (the game-over sound) is
-- modelled as a counter in the application state.

set_option maxRecDepth 4000

structure IRefCounted where
  refCount : Nat
  deleteCount : Nat
deriving DecidableEq

-- addRef(): refCount++.
def IRefCounted.addRef (o : IRefCounted) : IRefCounted :=
  { o with refCount := o.refCount + 1 }

-- release(): refCount--; if refCount == 0 then delete this.
def IRefCounted.release (o : IRefCounted) : IRefCounted :=
  { refCount := o.refCount - 1
    deleteCount := if o.refCount - 1 = 0 then o.deleteCount + 1 else o.deleteCount }

structure RefCnt where
  holds : Bool
deriving DecidableEq

-- RefCnt<T>::make: wraps a freshly allocated object, whose refCount field
-- is initialized to 1 in IRefCounted.
def RefCnt.make : RefCnt × IRefCounted :=
  (⟨true⟩, ⟨1, 0⟩)

-- ~RefCnt(): if (object) object->release().
def RefCnt.drop (h : RefCnt) (o : IRefCounted) : IRefCounted :=
  if h.holds then o.release else o

-- RefCnt(const RefCnt&): copies the pointer and calls addRef.
def RefCnt.copy (h : RefCnt) (o : IRefCounted) : RefCnt × IRefCounted :=
  (⟨h.holds⟩, o.addRef)

-- RefCnt(RefCnt&&): steals the pointer, nulls the source, count untouched.
-- Result: (new handle, source handle afterwards).
def RefCnt.moveFrom (h : RefCnt) : RefCnt × RefCnt :=
  (⟨h.holds⟩, ⟨false⟩)

-- RefCnt& operator=(RefCnt&&): releases the destination object if held,
-- steals the source pointer and nulls the source; the source object count
-- is untouched.  Result: (dst after, src after, dst object, src object).
def RefCnt.moveAssign (dst src : RefCnt) (odst osrc : IRefCounted) :
    RefCnt × RefCnt × IRefCounted × IRefCounted :=
  (⟨src.holds⟩, ⟨false⟩, if dst.holds then odst.release else odst, osrc)

structure Vec2 where
  x : ℚ
  y : ℚ
deriving DecidableEq

-- glm::clamp(v, lo, hi) = min(max(v, lo), hi).
def gclamp (v lo hi : ℚ) : ℚ := min (max v lo) hi

structure Quad where
  position : Vec2
  size : Vec2
deriving DecidableEq

-- Quad::moveX: add the amount, clamp into [-(2 - sx/2), 2 - sx/2].
def Quad.moveX (q : Quad) (amount : ℚ) : Quad :=
  { q with position :=
      ⟨gclamp (q.position.x + amount) (-(2 - q.size.x / 2)) (2 - q.size.x / 2),
        q.position.y⟩ }

-- Quad::moveY: add the amount, clamp into [-(1.5 - sy/2) - 1, 1.5 - sy/2];
-- the lower bound is shifted one unit below the visible world.
def Quad.moveY (q : Quad) (amount : ℚ) : Quad :=
  { q with position :=
      ⟨q.position.x,
        gclamp (q.position.y + amount) (-(1.5 - q.size.y / 2) - 1) (1.5 - q.size.y / 2)⟩ }

-- The clamp bounds as a predicate on a quad.
def Quad.inBounds (q : Quad) : Prop :=
  -(2 - q.size.x / 2) ≤ q.position.x ∧ q.position.x ≤ 2 - q.size.x / 2 ∧
  -(1.5 - q.size.y / 2) - 1 ≤ q.position.y ∧ q.position.y ≤ 1.5 - q.size.y / 2

instance (q : Quad) : Decidable q.inBounds := by
  unfold Quad.inBounds; infer_instance

inductive QuadMove where
  | mx (amount : ℚ)
  | my (amount : ℚ)
deriving DecidableEq

def Quad.applyMove (q : Quad) : QuadMove → Quad
  | QuadMove.mx a => q.moveX a
  | QuadMove.my a => q.moveY a

def Quad.applyMoves (q : Quad) (l : List QuadMove) : Quad :=
  l.foldl Quad.applyMove q

structure Box where
  topLeft : Vec2
  bottomLeft : Vec2
  bottomRight : Vec2
  topRight : Vec2
deriving DecidableEq

-- BoxGrid::Box::hit: point-vs-rectangle overlap expanded by the collision
-- bias.  The size argument is received but never read by the source.
def Box.hit (b : Box) (position : Vec2) (size : Vec2) (collisionBias : ℚ) : Bool :=
  decide (position.x - collisionBias < b.topRight.x ∧
    position.x + collisionBias > b.topLeft.x ∧
    position.y - collisionBias < b.topLeft.y ∧
    position.y + collisionBias > b.bottomRight.y)

-- The box emplaced for a skipped (destroyed) index: all four corners at
-- the off-screen point (-100, -100).
def sentinelBox : Box :=
  ⟨⟨-100, -100⟩, ⟨-100, -100⟩, ⟨-100, -100⟩, ⟨-100, -100⟩⟩

-- The box emplaced for a live cell whose running cursor is (lastX, lastY).
def mkGridBox (lastX lastY : ℚ) (boxSize : Vec2) : Box :=
  { topLeft := ⟨lastX - boxSize.x / 2, lastY + boxSize.y / 2⟩
    bottomLeft := ⟨lastX - boxSize.x / 2, lastY - boxSize.y / 2⟩
    bottomRight := ⟨lastX + boxSize.x / 2, lastY - boxSize.y / 2⟩
    topRight := ⟨lastX + boxSize.x / 2, lastY + boxSize.y / 2⟩ }

-- Inner loop of BoxGrid::generateVertices: one row of n cells starting at
-- running index boxIndex; lastX advances by margin + boxSize.x after every
-- cell, skipped or not (the goto label sits before the increment).
def genRow (skipped : List Nat) (boxSize : Vec2) (margin : ℚ) :
    Nat → ℚ → ℚ → Nat → List Box
  | 0, _, _, _ => []
  | n + 1, lastX, lastY, boxIndex =>
    (if boxIndex ∈ skipped then sentinelBox else mkGridBox lastX lastY boxSize) ::
      genRow skipped boxSize margin n (lastX + (margin + boxSize.x)) lastY (boxIndex + 1)

-- Outer loop: lastY drops by margin + boxSize.y after each row and lastX
-- resets to the grid origin x.
def genRows (skipped : List Nat) (boxSize : Vec2) (margin : ℚ) (startX : ℚ)
    (countX : Nat) : Nat → ℚ → Nat → List Box
  | 0, _, _ => []
  | n + 1, lastY, boxIndex =>
    genRow skipped boxSize margin countX startX lastY boxIndex ++
      genRows skipped boxSize margin startX countX n (lastY - (margin + boxSize.y))
        (boxIndex + countX)

def generateVertices (position : Vec2) (boxSize : Vec2) (margin : ℚ)
    (countX countY : Nat) (skipped : List Nat) : List Box :=
  genRows skipped boxSize margin position.x countX countY position.y 0

structure BoxGrid where
  position : Vec2
  boxSize : Vec2
  margin : ℚ
  countX : Nat
  countY : Nat
  skippedBoxes : List Nat
deriving DecidableEq

-- The cell array rebuilt by regenerate(): always generateVertices over the
-- current skip list (regenerate runs in the constructor and after every
-- destroyBox, so the cached vector always equals this).
def BoxGrid.boxes (g : BoxGrid) : List Box :=
  generateVertices g.position g.boxSize g.margin g.countX g.countY g.skippedBoxes

-- BoxGrid::destroyBox: push_back the index and regenerate.
def BoxGrid.destroyBox (g : BoxGrid) (idx : Nat) : BoxGrid :=
  { g with skippedBoxes := g.skippedBoxes ++ [idx] }

structure BallState where
  quad : Quad
  xStep : ℚ
  yStep : ℚ
deriving DecidableEq

def selfCollisionBias : ℚ := 0.02

def getYBouncePoint (b : BallState) : ℚ := 1.499 - b.quad.size.y / 2

def getXBouncePoint (b : BallState) : ℚ := 1.999 - b.quad.size.x / 2

def outOfWorld (b : BallState) : Bool :=
  decide (b.quad.position.y < -(getYBouncePoint b))

-- The whole scene the ball interacts with: its own state, the player quad
-- it reads, and the grid it may mutate.
structure World where
  ball : BallState
  player : Quad
  grid : BoxGrid
deriving DecidableEq

-- Which reflection conditions fired during one bounce call.
inductive BounceEvent where
  | wallRight
  | wallLeft
  | paddle
  | cell (i : Nat)
  | wallTop
deriving DecidableEq

def BounceEvent.isX : BounceEvent → Bool
  | BounceEvent.wallRight => true
  | BounceEvent.wallLeft => true
  | _ => false

def BounceEvent.isY : BounceEvent → Bool
  | BounceEvent.paddle => true
  | BounceEvent.cell _ => true
  | BounceEvent.wallTop => true
  | _ => false

-- The two moveX/moveY advances at the top of bounce.
def postMoveQuad (b : BallState) (speed : ℚ) : Quad :=
  (b.quad.moveX (b.xStep * speed)).moveY (b.yStep * speed)

-- First wall check: if x > xBouncePoint then xStep = -1 (no early return).
def wallXRight (b : BallState) (q : Quad) : ℚ × List BounceEvent :=
  if q.position.x > getXBouncePoint b then (-1, [BounceEvent.wallRight])
  else (b.xStep, [])

-- Second wall check, run on the result of the first: if x < -xBouncePoint
-- then xStep = 1 (again no early return).
def wallXLeft (b : BallState) (q : Quad) (prev : ℚ × List BounceEvent) :
    ℚ × List BounceEvent :=
  if q.position.x < -(getXBouncePoint b) then (1, prev.2 ++ [BounceEvent.wallLeft])
  else prev

def wallXResult (b : BallState) (q : Quad) : ℚ × List BounceEvent :=
  wallXLeft b q (wallXRight b q)

def paddleCollisionBias : ℚ := 0.6

-- The player intersection test of Ball::bounce: the ball point expanded by
-- selfCollisionBias against the player rectangle with paddleCollisionBias
-- subtracted from both vertical bounds.
def paddleHit (pos : Vec2) (p : Quad) : Bool :=
  decide (pos.x - selfCollisionBias < p.position.x + p.size.x / 2 ∧
    pos.x + selfCollisionBias > p.position.x - p.size.x / 2 ∧
    pos.y - selfCollisionBias < p.position.y + p.size.y / 2 - paddleCollisionBias ∧
    pos.y + selfCollisionBias > p.position.y - p.size.y / 2 - paddleCollisionBias)

-- The grid loop of Ball::bounce: index of the first box whose hit test
-- succeeds, scanning from index 0.
def firstHitIdx (boxes : List Box) (pos size : Vec2) (bias : ℚ) : Option Nat :=
  match boxes with
  | [] => none
  | b :: rest =>
    if b.hit pos size bias then some 0
    else (firstHitIdx rest pos size bias).map (· + 1)

-- Ball::bounce, instrumented with the list of reflection conditions that
-- fired.  Control flow of the source: early position-threshold return,
-- advance, two wall-x checks without return, paddle check with return,
-- grid scan with return, wall-top check.
def bounceAux (w : World) (speed : ℚ) : World × List BounceEvent :=
  if w.ball.quad.position.y < -(getYBouncePoint w.ball) - 0.1 then (w, [])
  else if paddleHit (postMoveQuad w.ball speed).position w.player then
    ({ w with ball :=
        { quad := (postMoveQuad w.ball speed).moveY 0.05,
          xStep := (wallXResult w.ball (postMoveQuad w.ball speed)).1,
          yStep := -w.ball.yStep } },
      (wallXResult w.ball (postMoveQuad w.ball speed)).2 ++ [BounceEvent.paddle])
  else
    match firstHitIdx w.grid.boxes (postMoveQuad w.ball speed).position
        (postMoveQuad w.ball speed).size selfCollisionBias with
    | some i =>
      ({ w with
          ball :=
            { quad := postMoveQuad w.ball speed,
              xStep := (wallXResult w.ball (postMoveQuad w.ball speed)).1,
              yStep := -w.ball.yStep },
          grid := w.grid.destroyBox i },
        (wallXResult w.ball (postMoveQuad w.ball speed)).2 ++ [BounceEvent.cell i])
    | none =>
      if (postMoveQuad w.ball speed).position.y > getYBouncePoint w.ball then
        ({ w with ball :=
            { quad := postMoveQuad w.ball speed,
              xStep := (wallXResult w.ball (postMoveQuad w.ball speed)).1,
              yStep := -1 } },
          (wallXResult w.ball (postMoveQuad w.ball speed)).2 ++ [BounceEvent.wallTop])
      else
        ({ w with ball :=
            { quad := postMoveQuad w.ball speed,
              xStep := (wallXResult w.ball (postMoveQuad w.ball speed)).1,
              yStep := w.ball.yStep } },
          (wallXResult w.ball (postMoveQuad w.ball speed)).2)

def bounce (w : World) (speed : ℚ) : World := (bounceAux w speed).1

def bounceEvents (w : World) (speed : ℚ) : List BounceEvent := (bounceAux w speed).2

structure AppState where
  world : World
  gameOver : Bool
  goSoundCount : Nat
deriving DecidableEq

-- Per-frame key state (GLFW_PRESS = 1, released = 0).
structure Input where
  keyA : Bool
  keyD : Bool
deriving DecidableEq

def keyVal (b : Bool) : ℚ := if b then 1 else 0

-- The two player->move calls of Application::update:
-- move(deltaTime * -keyA, 1.5) then move(deltaTime * keyD, 1.5), where
-- PlayerPlatform::move(direction, speed) is quad.moveX(direction * speed).
def movedPlayer (p : Quad) (inp : Input) (dt : ℚ) : Quad :=
  (p.moveX (dt * -(keyVal inp.keyA) * 1.5)).moveX (dt * keyVal inp.keyD * 1.5)

-- Application::update(deltaTime) without the reset/quit keys: move the
-- player, bounce the ball with speed deltaTime * 1.5, then latch gameOver
-- (and play the game-over sound) on the first out-of-world frame.
def appUpdate (s : AppState) (inp : Input) (dt : ℚ) : AppState :=
  if outOfWorld (bounce { s.world with player := movedPlayer s.world.player inp dt }
      (dt * 1.5)).ball then
    if s.gameOver then
      { world := bounce { s.world with player := movedPlayer s.world.player inp dt } (dt * 1.5),
        gameOver := s.gameOver, goSoundCount := s.goSoundCount }
    else
      { world := bounce { s.world with player := movedPlayer s.world.player inp dt } (dt * 1.5),
        gameOver := true, goSoundCount := s.goSoundCount + 1 }
  else
    { world := bounce { s.world with player := movedPlayer s.world.player inp dt } (dt * 1.5),
      gameOver := s.gameOver, goSoundCount := s.goSoundCount }

def runUpdates (s : AppState) (l : List (Input × ℚ)) : AppState :=
  l.foldl (fun t p => appUpdate t p.1 p.2) s

-- Constants of Application::createResources.
def gridMargin : ℚ := 0.01
def gridXSize : ℚ := 4 / 10 - gridMargin * 1.1
def gridYSize : ℚ := gridXSize / 3

def gameGrid : BoxGrid :=
  { position := ⟨-2 + gridMargin + gridXSize / 2, 1.5 - gridMargin - gridYSize / 2⟩
    boxSize := ⟨gridXSize, gridYSize⟩
    margin := gridMargin
    countX := 10
    countY := 7
    skippedBoxes := [] }

def gamePlayer : Quad := { position := ⟨0, -0.6⟩, size := ⟨0.4, 0.05⟩ }

def initialWorld : World :=
  { ball := { quad := { position := ⟨0, 0⟩, size := ⟨0.1, 0.1⟩ }, xStep := 1, yStep := 1 }
    player := gamePlayer
    grid := gameGrid }

-- Application::createResources: rebuild every entity from the fixed initial
-- parameters and clear the gameOver latch.  The sound counter is a model
-- instrumentation and keeps its running total.
def createResources (s : AppState) : AppState :=
  { world := initialWorld, gameOver := false, goSoundCount := s.goSoundCount }

-- The ball quad of createResources and a concrete move sequence.
def ballQuadW : Quad := { position := ⟨0, 0⟩, size := ⟨0.1, 0.1⟩ }

def movesW : List QuadMove := [QuadMove.mx 100, QuadMove.my (-100), QuadMove.mx (-0.5)]

def witWorld9 : World :=
  { ball := { quad := { position := ⟨0, -2⟩, size := ⟨0.1, 0.1⟩ }, xStep := 1, yStep := -1 }
    player := gamePlayer
    grid := gameGrid }

def cexState8 : AppState :=
  { world :=
      { ball := { quad := { position := ⟨0, -1.46⟩, size := ⟨0.1, 0.1⟩ }, xStep := 1, yStep := -1 }
        player := gamePlayer
        grid := gameGrid }
    gameOver := true
    goSoundCount := 1 }

def witState8 : AppState :=
  { world :=
      { ball := { quad := { position := ⟨0, -1.6⟩, size := ⟨0.1, 0.1⟩ }, xStep := 1, yStep := -1 }
        player := gamePlayer
        grid := gameGrid }
    gameOver := true
    goSoundCount := 1 }

-- Modelled from the spec for comparison with the source: the spec describes
-- the paddle rectangle as expanded by the hitbox bias along y (a catch zone
-- taller than the visual paddle), so the bias is added to the upper bound
-- and subtracted from the lower bound.
def paddleHitSpecExpanded (pos : Vec2) (p : Quad) : Bool :=
  decide (pos.x - selfCollisionBias < p.position.x + p.size.x / 2 ∧
    pos.x + selfCollisionBias > p.position.x - p.size.x / 2 ∧
    pos.y - selfCollisionBias < p.position.y + p.size.y / 2 + paddleCollisionBias ∧
    pos.y + selfCollisionBias > p.position.y - p.size.y / 2 - paddleCollisionBias)

def cexWorld7 : World :=
  { ball := { quad := { position := ⟨0, -0.6⟩, size := ⟨0.1, 0.1⟩ }, xStep := 1, yStep := 1 }
    player := gamePlayer
    grid := gameGrid }

def witWorld7 : World :=
  { ball := { quad := { position := ⟨0, -1.2⟩, size := ⟨0.1, 0.1⟩ }, xStep := 1, yStep := -1 }
    player := gamePlayer
    grid := gameGrid }

def emptyGrid : BoxGrid :=
  { position := ⟨0, 0⟩
    boxSize := ⟨0.5, 0.5⟩
    margin := 0.01
    countX := 10
    countY := 0
    skippedBoxes := [] }

def cexWorld3 : World :=
  { ball := { quad := { position := ⟨1.95, 1.45⟩, size := ⟨0.1, 0.1⟩ }, xStep := 1, yStep := 1 }
    player := gamePlayer
    grid := emptyGrid }

def witState4 : AppState :=
  { world :=
      { ball := { quad := { position := ⟨0, -1.44⟩, size := ⟨0.1, 0.1⟩ }, xStep := 1, yStep := -1 }
        player := gamePlayer
        grid := gameGrid }
    gameOver := false
    goSoundCount := 0 }

/-- C1: a handle created by make starts with reference count 1; copying the
handle and dropping the original keeps the object alive (no delete has run,
count back to 1); dropping the copy as well brings the count from 1 to 0 and
runs delete exactly once; move construction and move assignment transfer the
pointer without touching the source object count and null the source. -/
theorem refcnt_single_release :
    (RefCnt.make.2.refCount = 1 ∧ RefCnt.make.2.deleteCount = 0) ∧
    ((RefCnt.copy RefCnt.make.1 RefCnt.make.2).2.refCount = 2 ∧
      (RefCnt.drop RefCnt.make.1 (RefCnt.copy RefCnt.make.1 RefCnt.make.2).2).deleteCount = 0 ∧
      (RefCnt.drop RefCnt.make.1 (RefCnt.copy RefCnt.make.1 RefCnt.make.2).2).refCount = 1 ∧
      (RefCnt.drop (RefCnt.copy RefCnt.make.1 RefCnt.make.2).1
        (RefCnt.drop RefCnt.make.1 (RefCnt.copy RefCnt.make.1 RefCnt.make.2).2)).refCount = 0 ∧
      (RefCnt.drop (RefCnt.copy RefCnt.make.1 RefCnt.make.2).1
        (RefCnt.drop RefCnt.make.1 (RefCnt.copy RefCnt.make.1 RefCnt.make.2).2)).deleteCount = 1) ∧
    (∀ (h : RefCnt) (o : IRefCounted),
      (RefCnt.moveFrom h).1.holds = h.holds ∧
      (RefCnt.moveFrom h).2.holds = false ∧
      RefCnt.drop (RefCnt.moveFrom h).2 o = o) ∧
    (∀ (dst src : RefCnt) (odst osrc : IRefCounted),
      (RefCnt.moveAssign dst src odst osrc).2.2.2 = osrc ∧
      (RefCnt.moveAssign dst src odst osrc).1.holds = src.holds ∧
      (RefCnt.moveAssign dst src odst osrc).2.1.holds = false) := by
  refine ⟨⟨rfl, rfl⟩, ⟨rfl, rfl, rfl, rfl, rfl⟩,
    fun h o => ⟨rfl, rfl, rfl⟩, fun dst src odst osrc => ⟨rfl, rfl, rfl⟩⟩

/-- C10: Box::hit depends only on the query point, the bias and the corner
coordinates of the cell; any two values of the size parameter give the same
result. -/
theorem hit_ignores_size (b : Box) (pos s1 s2 : Vec2) (bias : ℚ) :
    b.hit pos s1 bias = b.hit pos s2 bias := rfl

theorem gclamp_mem (v lo hi : ℚ) (h : lo ≤ hi) :
    lo ≤ gclamp v lo hi ∧ gclamp v lo hi ≤ hi := by
  unfold gclamp
  exact ⟨le_min (le_max_right v lo) h, min_le_right _ _⟩

theorem moveX_size (q : Quad) (a : ℚ) : (q.moveX a).size = q.size := rfl

theorem moveY_size (q : Quad) (a : ℚ) : (q.moveY a).size = q.size := rfl

theorem applyMove_size (q : Quad) (m : QuadMove) : (q.applyMove m).size = q.size := by
  cases m <;> rfl

theorem moveX_inBounds (q : Quad) (a : ℚ) (hx : q.size.x ≤ 4) (h : q.inBounds) :
    (q.moveX a).inBounds := by
  obtain ⟨_, _, h3, h4⟩ := h
  have hb := gclamp_mem (q.position.x + a) (-(2 - q.size.x / 2)) (2 - q.size.x / 2)
    (by linarith)
  exact ⟨hb.1, hb.2, h3, h4⟩

theorem moveY_inBounds (q : Quad) (a : ℚ) (hy : q.size.y ≤ 4) (h : q.inBounds) :
    (q.moveY a).inBounds := by
  obtain ⟨h1, h2, _, _⟩ := h
  have hb := gclamp_mem (q.position.y + a) (-(1.5 - q.size.y / 2) - 1) (1.5 - q.size.y / 2)
    (by linarith)
  exact ⟨h1, h2, hb.1, hb.2⟩

theorem applyMoves_inBounds :
    ∀ (l : List QuadMove) (q : Quad), q.size.x ≤ 4 → q.size.y ≤ 4 → q.inBounds →
      (q.applyMoves l).inBounds := by
  intro l
  induction l with
  | nil => exact fun q _ _ h => h
  | cons m t ih =>
    intro q hx hy h
    have hs := applyMove_size q m
    have hx2 : (q.applyMove m).size.x ≤ 4 := by rw [hs]; exact hx
    have hy2 : (q.applyMove m).size.y ≤ 4 := by rw [hs]; exact hy
    have hb : (q.applyMove m).inBounds := by
      cases m with
      | mx a => exact moveX_inBounds q a hx h
      | my a => exact moveY_inBounds q a hy h
    exact ih (q.applyMove m) hx2 hy2 hb

theorem applyMoves_size :
    ∀ (l : List QuadMove) (q : Quad), (q.applyMoves l).size = q.size := by
  intro l
  induction l with
  | nil => exact fun _ => rfl
  | cons m t ih =>
    intro q
    calc (q.applyMoves (m :: t)).size = ((q.applyMove m).applyMoves t).size := rfl
    _ = (q.applyMove m).size := ih (q.applyMove m)
    _ = q.size := applyMove_size q m

/-- C2: starting from any quad within the clamp bounds (as the paddle and
the ball both do) whose sizes fit the playfield, every finite sequence of
moveX/moveY calls with arbitrary rational amounts leaves position.x within
[-(2 - size.x/2), 2 - size.x/2] and position.y within
[-(1.5 - size.y/2) - 1, 1.5 - size.y/2]. -/
theorem quad_clamp_invariant (q : Quad) (l : List QuadMove)
    (hx : q.size.x ≤ 4) (hy : q.size.y ≤ 4) (h : q.inBounds) :
    -(2 - q.size.x / 2) ≤ (q.applyMoves l).position.x ∧
    (q.applyMoves l).position.x ≤ 2 - q.size.x / 2 ∧
    -(1.5 - q.size.y / 2) - 1 ≤ (q.applyMoves l).position.y ∧
    (q.applyMoves l).position.y ≤ 1.5 - q.size.y / 2 := by
  have hb := applyMoves_inBounds l q hx hy h
  have hs := applyMoves_size l q
  obtain ⟨b1, b2, b3, b4⟩ := hb
  rw [hs] at b1 b2 b3 b4
  exact ⟨b1, b2, b3, b4⟩

/-- Witness for C2: the game ball quad, pushed far right then far down, stays
inside its clamp range. -/
theorem quad_clamp_invariant_witness :
    -(2 - (ballQuadW.size.x) / 2) ≤ (ballQuadW.applyMoves movesW).position.x ∧
    (ballQuadW.applyMoves movesW).position.x ≤ 2 - ballQuadW.size.x / 2 ∧
    -(1.5 - ballQuadW.size.y / 2) - 1 ≤ (ballQuadW.applyMoves movesW).position.y ∧
    (ballQuadW.applyMoves movesW).position.y ≤ 1.5 - ballQuadW.size.y / 2 :=
  quad_clamp_invariant ballQuadW movesW
    (of_decide_eq_true (by with_unfolding_all rfl))
    (of_decide_eq_true (by with_unfolding_all rfl))
    (of_decide_eq_true (by with_unfolding_all rfl))

theorem bounceAux_below (w : World) (speed : ℚ)
    (h : w.ball.quad.position.y < -(getYBouncePoint w.ball) - 0.1) :
    bounceAux w speed = (w, []) := by
  unfold bounceAux
  rw [if_pos h]

/-- C9: whenever the ball position is below the threshold
-(1.499 - size.y/2) - 0.1, bounce returns at once: the whole world (ball
position, both steps, paddle and the grid with its destroyed set) is
unchanged for every speed, no reflection condition fires, and iterating
bounce with any speeds keeps the world frozen until a rebuild replaces it.
The early return reads only the position, never the gameOver flag. -/
theorem bounce_freeze_below_threshold (w : World)
    (h : w.ball.quad.position.y < -(1.499 - w.ball.quad.size.y / 2) - 0.1) :
    (∀ speed : ℚ, bounce w speed = w ∧ bounceEvents w speed = []) ∧
    (∀ speeds : List ℚ, speeds.foldl bounce w = w) := by
  have h2 : w.ball.quad.position.y < -(getYBouncePoint w.ball) - 0.1 := h
  constructor
  · intro speed
    unfold bounce bounceEvents
    rw [bounceAux_below w speed h2]
    exact ⟨rfl, rfl⟩
  · intro speeds
    induction speeds with
    | nil => rfl
    | cons s t ih =>
      rw [List.foldl_cons]
      have hb : bounce w s = w := by unfold bounce; rw [bounceAux_below w s h2]
      rw [hb]
      exact ih

/-- Witness for C9: a ball two units below the origin is frozen for speed 0.5
and for the speed sequence 1, 2. -/
theorem bounce_freeze_below_threshold_witness :
    bounce witWorld9 0.5 = witWorld9 ∧ List.foldl bounce witWorld9 [1, 2] = witWorld9 :=
  ⟨((bounce_freeze_below_threshold witWorld9
      (of_decide_eq_true (by with_unfolding_all rfl))).1 0.5).1,
    (bounce_freeze_below_threshold witWorld9
      (of_decide_eq_true (by with_unfolding_all rfl))).2 [1, 2]⟩

/-- C8 counterexample: a state with gameOver already latched (the ball at
y = -1.46 is out of world, which is what latched it) where the next update
still moves the ball: bounce is not gated on gameOver, only on the position
threshold 0.1 lower. -/
theorem gameOver_does_not_freeze_ball :
    cexState8.gameOver = true ∧
    (appUpdate cexState8 ⟨false, false⟩ 0.01).world.ball.quad.position ≠
      cexState8.world.ball.quad.position :=
  ⟨rfl, of_decide_eq_true (by with_unfolding_all rfl)⟩

/-- C8 amended: the ball is frozen by the per-tick update exactly when its
position is below the threshold -(1.499 - size.y/2) - 0.1, one tenth below
the out-of-world bound that latches gameOver; below that threshold an update
leaves the ball and the grid unchanged and gameOver (re)latched true, but a
merely latched gameOver does not by itself freeze the ball. -/
theorem update_ball_frozen_below_threshold (s : AppState) (inp : Input) (dt : ℚ)
    (h : s.world.ball.quad.position.y < -(1.499 - s.world.ball.quad.size.y / 2) - 0.1) :
    (appUpdate s inp dt).world.ball = s.world.ball ∧
    (appUpdate s inp dt).world.grid = s.world.grid ∧
    (appUpdate s inp dt).gameOver = true := by
  have h2 : ({ s.world with player := movedPlayer s.world.player inp dt } :
      World).ball.quad.position.y <
      -(getYBouncePoint ({ s.world with player := movedPlayer s.world.player inp dt } :
        World).ball) - 0.1 := h
  have hb : bounce { s.world with player := movedPlayer s.world.player inp dt } (dt * 1.5) =
      { s.world with player := movedPlayer s.world.player inp dt } := by
    unfold bounce
    rw [bounceAux_below _ _ h2]
  have ho : outOfWorld (bounce { s.world with player := movedPlayer s.world.player inp dt }
      (dt * 1.5)).ball = true := by
    rw [hb]
    apply decide_eq_true
    show s.world.ball.quad.position.y < -(getYBouncePoint s.world.ball)
    have h3 : s.world.ball.quad.position.y <
        -(1.499 - s.world.ball.quad.size.y / 2) - 0.1 := h
    unfold getYBouncePoint
    linarith
  unfold appUpdate
  rw [if_pos ho]
  by_cases hg : s.gameOver = true
  · rw [if_pos hg]
    exact ⟨by rw [hb], by rw [hb], hg⟩
  · rw [if_neg hg]
    exact ⟨by rw [hb], by rw [hb], rfl⟩

/-- Witness for the amended C8: with the ball at y = -1.6, an update leaves
the ball and grid unchanged and gameOver stays true. -/
theorem update_ball_frozen_below_threshold_witness :
    (appUpdate witState8 ⟨false, false⟩ 1).world.ball = witState8.world.ball ∧
    (appUpdate witState8 ⟨false, false⟩ 1).world.grid = witState8.world.grid ∧
    (appUpdate witState8 ⟨false, false⟩ 1).gameOver = true :=
  update_ball_frozen_below_threshold witState8 ⟨false, false⟩ 1
    (of_decide_eq_true (by with_unfolding_all rfl))

/-- C7 counterexample: the source test is not the spec-described expanded
(taller) paddle rectangle.  A ball exactly at the paddle center (0, -0.6)
overlaps the expanded rectangle but the source test misses it, and a bounce
from that position flips nothing; conversely the source test fires at
(0, -1.2), a point 0.6 below the paddle, far outside even the expanded
rectangle. -/
theorem paddle_zone_shifted_not_taller :
    paddleHitSpecExpanded ⟨0, -0.6⟩ gamePlayer = true ∧
    paddleHit ⟨0, -0.6⟩ gamePlayer = false ∧
    paddleHit ⟨0, -1.2⟩ gamePlayer = true ∧
    cexWorld7.ball.quad.position = ⟨0, -0.6⟩ ∧
    (bounce cexWorld7 0).ball.yStep = cexWorld7.ball.yStep := by
  refine ⟨by with_unfolding_all rfl, by with_unfolding_all rfl,
    by with_unfolding_all rfl, rfl, by with_unfolding_all rfl⟩

/-- C7 amended: the paddle check is an overlap test between the ball point
expanded by the self-collision bias 0.02 and the paddle rectangle shifted
down by 0.6 along y (same height as the visual paddle, not taller); when it
holds on the post-move position, the tick flips yStep, nudges the ball
upward through moveY 0.05, leaves the grid untouched and performs no cell or
top-wall check that tick. -/
theorem paddle_check_behavior :
    (∀ (pos : Vec2) (p : Quad),
      paddleHit pos p = true ↔
        (pos.x - selfCollisionBias < p.position.x + p.size.x / 2 ∧
          pos.x + selfCollisionBias > p.position.x - p.size.x / 2 ∧
          pos.y - selfCollisionBias < (p.position.y - paddleCollisionBias) + p.size.y / 2 ∧
          pos.y + selfCollisionBias > (p.position.y - paddleCollisionBias) - p.size.y / 2)) ∧
    (∀ (w : World) (speed : ℚ),
      ¬(w.ball.quad.position.y < -(getYBouncePoint w.ball) - 0.1) →
      paddleHit (postMoveQuad w.ball speed).position w.player = true →
      bounce w speed = { w with ball :=
        { quad := (postMoveQuad w.ball speed).moveY 0.05,
          xStep := (wallXResult w.ball (postMoveQuad w.ball speed)).1,
          yStep := -w.ball.yStep } } ∧
      (bounce w speed).grid = w.grid ∧
      bounceEvents w speed =
        (wallXResult w.ball (postMoveQuad w.ball speed)).2 ++ [BounceEvent.paddle]) := by
  constructor
  · intro pos p
    unfold paddleHit
    rw [decide_eq_true_eq]
    constructor
    · rintro ⟨a, b, c, d⟩
      exact ⟨a, b, by linarith, by linarith⟩
    · rintro ⟨a, b, c, d⟩
      exact ⟨a, b, by linarith, by linarith⟩
  · intro w speed h1 h2
    unfold bounce bounceEvents bounceAux
    rw [if_neg h1, if_pos h2]
    exact ⟨rfl, rfl, rfl⟩

/-- Witness for the amended C7: the ball at (0, -1.2), inside the shifted
catch zone, bounces off the paddle: yStep flips and the grid is untouched. -/
theorem paddle_check_behavior_witness :
    bounce witWorld7 0 = { witWorld7 with ball :=
      { quad := (postMoveQuad witWorld7.ball 0).moveY 0.05,
        xStep := (wallXResult witWorld7.ball (postMoveQuad witWorld7.ball 0)).1,
        yStep := -witWorld7.ball.yStep } } ∧
    (bounce witWorld7 0).grid = witWorld7.grid ∧
    bounceEvents witWorld7 0 =
      (wallXResult witWorld7.ball (postMoveQuad witWorld7.ball 0)).2 ++ [BounceEvent.paddle] :=
  paddle_check_behavior.2 witWorld7 0
    (of_decide_eq_true (by with_unfolding_all rfl))
    (by with_unfolding_all rfl)

/-- C3 counterexample: a single bounce call in the top-right corner flips
both step components: the wall-x check flips xStep and, because that check
does not end the tick, the top-wall check still fires and flips yStep in
the same call. -/
theorem corner_tick_flips_both_steps :
    (bounce cexWorld3 0.01).ball.xStep ≠ cexWorld3.ball.xStep ∧
    (bounce cexWorld3 0.01).ball.yStep ≠ cexWorld3.ball.yStep ∧
    bounceEvents cexWorld3 0.01 = [BounceEvent.wallRight, BounceEvent.wallTop] :=
  ⟨of_decide_eq_true (by with_unfolding_all rfl),
    of_decide_eq_true (by with_unfolding_all rfl),
    by with_unfolding_all rfl⟩

theorem wallXResult_cases (b : BallState) (q : Quad) (h : 0 ≤ getXBouncePoint b) :
    (wallXResult b q).2 = [] ∨ (wallXResult b q).2 = [BounceEvent.wallRight] ∨
      (wallXResult b q).2 = [BounceEvent.wallLeft] := by
  unfold wallXResult wallXLeft wallXRight
  by_cases h1 : q.position.x > getXBouncePoint b
  · by_cases h2 : q.position.x < -(getXBouncePoint b)
    · exfalso
      linarith
    · rw [if_pos h1, if_neg h2]
      right; left; rfl
  · by_cases h2 : q.position.x < -(getXBouncePoint b)
    · rw [if_neg h1, if_pos h2]
      right; right
      simp
    · rw [if_neg h1, if_neg h2]
      left
      rfl

/-- C3 amended: per bounce call, at most one wall-x condition changes xStep
and at most one of the three y conditions (paddle-hit, cell-hit, top-wall)
changes yStep: the y checks stop the tick at the first match, but a wall-x
flip does not stop the tick, so a single call may flip xStep and yStep
together (corner or wall-plus-paddle ticks); no single component is flipped
twice. -/
theorem bounce_flip_structure (w : World) (speed : ℚ)
    (h : 0 ≤ getXBouncePoint w.ball) :
    (bounceEvents w speed).countP BounceEvent.isX ≤ 1 ∧
    (bounceEvents w speed).countP BounceEvent.isY ≤ 1 := by
  have hx := wallXResult_cases w.ball (postMoveQuad w.ball speed) h
  unfold bounceEvents bounceAux
  by_cases h1 : w.ball.quad.position.y < -(getYBouncePoint w.ball) - 0.1
  · rw [if_pos h1]
    simp
  · rw [if_neg h1]
    by_cases h2 : paddleHit (postMoveQuad w.ball speed).position w.player = true
    · rw [if_pos h2]
      rcases hx with hc | hc | hc <;>
        simp [hc, List.countP_append, List.countP_cons, BounceEvent.isX, BounceEvent.isY]
    · rw [if_neg h2]
      rcases hm : firstHitIdx w.grid.boxes (postMoveQuad w.ball speed).position
          (postMoveQuad w.ball speed).size selfCollisionBias with _ | i
      · dsimp only
        by_cases h3 : (postMoveQuad w.ball speed).position.y > getYBouncePoint w.ball
        · rw [if_pos h3]
          rcases hx with hc | hc | hc <;>
            simp [hc, List.countP_append, List.countP_cons, BounceEvent.isX, BounceEvent.isY]
        · rw [if_neg h3]
          rcases hx with hc | hc | hc <;>
            simp [hc, List.countP_append, List.countP_cons, BounceEvent.isX, BounceEvent.isY]
      · dsimp only
        rcases hx with hc | hc | hc <;>
          simp [hc, List.countP_append, List.countP_cons, BounceEvent.isX, BounceEvent.isY]

/-- Witness for the amended C3: the counts of x flips and y flips in one
bounce of the freshly built scene are each at most one. -/
theorem bounce_flip_structure_witness :
    (bounceEvents initialWorld 0.1).countP BounceEvent.isX ≤ 1 ∧
    (bounceEvents initialWorld 0.1).countP BounceEvent.isY ≤ 1 :=
  bounce_flip_structure initialWorld 0.1 (of_decide_eq_true (by with_unfolding_all rfl))

theorem appUpdate_soundInv (s : AppState) (inp : Input) (dt : ℚ) (base : Nat)
    (h : s.goSoundCount = base + (if s.gameOver then 1 else 0)) :
    (appUpdate s inp dt).goSoundCount =
      base + (if (appUpdate s inp dt).gameOver then 1 else 0) := by
  unfold appUpdate
  by_cases ho : outOfWorld (bounce { s.world with player := movedPlayer s.world.player inp dt }
      (dt * 1.5)).ball = true
  · rw [if_pos ho]
    by_cases hg : s.gameOver = true
    · rw [if_pos hg]
      rw [hg] at h
      simp only [hg, if_true]
      simpa using h
    · rw [if_neg hg]
      have hg2 : s.gameOver = false := Bool.not_eq_true s.gameOver ▸ hg
      rw [hg2] at h
      simp at h
      simp [h]
  · rw [if_neg ho]
    exact h

theorem runUpdates_soundInv :
    ∀ (l : List (Input × ℚ)) (s : AppState) (base : Nat),
      s.goSoundCount = base + (if s.gameOver then 1 else 0) →
      (runUpdates s l).goSoundCount =
        base + (if (runUpdates s l).gameOver then 1 else 0) := by
  intro l
  induction l with
  | nil => exact fun s base h => h
  | cons p t ih =>
    intro s base h
    exact ih (appUpdate s p.1 p.2) base (appUpdate_soundInv s p.1 p.2 base h)

/-- C4: within one session (no rebuild), the game-over sound plays exactly
when the gameOver latch is set: starting from a state with the latch clear
and no sound played, after any sequence of updates the sound count is 1 if
gameOver has latched and 0 otherwise, so the loss signal fires exactly once
even if the ball stays below the bound for many ticks; once latched, further
updates keep gameOver true and play nothing; only createResources clears
the latch. -/
theorem gameOver_latched_once :
    (∀ (s : AppState) (l : List (Input × ℚ)), s.gameOver = false → s.goSoundCount = 0 →
      (runUpdates s l).goSoundCount = (if (runUpdates s l).gameOver then 1 else 0)) ∧
    (∀ (s : AppState) (inp : Input) (dt : ℚ), s.gameOver = true →
      (appUpdate s inp dt).gameOver = true ∧
      (appUpdate s inp dt).goSoundCount = s.goSoundCount) ∧
    (∀ s : AppState, (createResources s).gameOver = false) := by
  refine ⟨?_, ?_, fun s => rfl⟩
  · intro s l hg hc
    have h := runUpdates_soundInv l s 0 (by rw [hc, hg]; rfl)
    simpa using h
  · intro s inp dt hg
    unfold appUpdate
    by_cases ho : outOfWorld (bounce { s.world with player := movedPlayer s.world.player inp dt }
        (dt * 1.5)).ball = true
    · rw [if_pos ho, if_pos hg]
      exact ⟨hg, rfl⟩
    · rw [if_neg ho]
      exact ⟨hg, rfl⟩

/-- Witness for C4: from a fresh session with the ball one tick above the
loss bound, a single update latches gameOver and the sound count is 1. -/
theorem gameOver_latched_once_witness :
    (runUpdates witState4 [(⟨false, false⟩, 0.1)]).goSoundCount =
      (if (runUpdates witState4 [(⟨false, false⟩, 0.1)]).gameOver then 1 else 0) ∧
    (appUpdate (createResources witState4) ⟨false, false⟩ 0).gameOver = false :=
  ⟨gameOver_latched_once.1 witState4 [(⟨false, false⟩, 0.1)] rfl rfl,
    by with_unfolding_all rfl⟩

theorem genRow_length (skipped : List Nat) (bs : Vec2) (m : ℚ) :
    ∀ (n : Nat) (lX lY : ℚ) (b0 : Nat), (genRow skipped bs m n lX lY b0).length = n := by
  intro n
  induction n with
  | zero => intro lX lY b0; rfl
  | succ k ih =>
    intro lX lY b0
    simp only [genRow, List.length_cons]
    rw [ih]

theorem genRow_getElem_skipped (skipped : List Nat) (bs : Vec2) (m : ℚ) :
    ∀ (n : Nat) (lX lY : ℚ) (b0 i : Nat), i < n → b0 + i ∈ skipped →
      (genRow skipped bs m n lX lY b0)[i]? = some sentinelBox := by
  intro n
  induction n with
  | zero =>
    intro lX lY b0 i hi hmem
    exact absurd hi (Nat.not_lt_zero i)
  | succ k ih =>
    intro lX lY b0 i hi hmem
    cases i with
    | zero =>
      simp only [genRow, List.getElem?_cons_zero]
      have hb : b0 ∈ skipped := by simpa using hmem
      rw [if_pos hb]
    | succ j =>
      simp only [genRow, List.getElem?_cons_succ]
      have hmem2 : (b0 + 1) + j ∈ skipped := by
        have he : b0 + 1 + j = b0 + (j + 1) := by omega
        rw [he]
        exact hmem
      exact ih (lX + (m + bs.x)) lY (b0 + 1) j (by omega) hmem2

theorem genRows_getElem_skipped (skipped : List Nat) (bs : Vec2) (m sX : ℚ) (cX : Nat) :
    ∀ (rows : Nat) (lY : ℚ) (b0 i : Nat), i < rows * cX → b0 + i ∈ skipped →
      (genRows skipped bs m sX cX rows lY b0)[i]? = some sentinelBox := by
  intro rows
  induction rows with
  | zero =>
    intro lY b0 i hi hmem
    exact absurd hi (by simp)
  | succ r ih =>
    intro lY b0 i hi hmem
    simp only [genRows]
    by_cases hc : i < cX
    · rw [List.getElem?_append_left (by rw [genRow_length]; exact hc)]
      exact genRow_getElem_skipped skipped bs m cX sX lY b0 i hc hmem
    · rw [List.getElem?_append_right (by rw [genRow_length]; omega)]
      rw [genRow_length]
      have hi2 : i - cX < r * cX := by
        rw [Nat.succ_mul] at hi
        omega
      have hmem2 : (b0 + cX) + (i - cX) ∈ skipped := by
        have he : b0 + cX + (i - cX) = b0 + i := by omega
        rw [he]
        exact hmem
      exact ih (lY - (m + bs.y)) (b0 + cX) (i - cX) hi2 hmem2

theorem sentinel_hit_false (pos size : Vec2) (bias : ℚ) (h : -100 ≤ pos.x - bias) :
    sentinelBox.hit pos size bias = false := by
  apply decide_eq_false
  intro hcon
  have h1 : pos.x - bias < -100 := hcon.1
  linarith

/-- C5 counterexample: a destroyed index is still hit-testable after the
rebuild: cell 37 of the game grid, once destroyed, sits at the sentinel and
Box::hit on it returns true for a query point near (-100, -100). -/
theorem destroyed_cell_hittable_offscreen :
    (gameGrid.destroyBox 37).boxes[37]? = some sentinelBox ∧
    sentinelBox.hit ⟨-100.01, -100.01⟩ ⟨0.1, 0.1⟩ 0.02 = true :=
  ⟨by with_unfolding_all rfl, by with_unfolding_all rfl⟩

/-- C5 amended: destroyBox only appends to the destroyed set, so the set
only grows and a recorded index is never removed; every destroyed index
inside the grid is placed at the sentinel on rebuild, and the sentinel is
not hit-testable for any query point with point.x - bias at least -100,
which covers every position the clamped ball can reach; only probe points
near the off-screen sentinel itself can still register a hit. -/
theorem destroyed_set_monotone_and_unhittable :
    (∀ (g : BoxGrid) (idx : Nat),
      (g.destroyBox idx).skippedBoxes = g.skippedBoxes ++ [idx] ∧
      idx ∈ (g.destroyBox idx).skippedBoxes) ∧
    (∀ (g : BoxGrid) (idx : Nat), idx ∈ g.skippedBoxes → idx < g.countY * g.countX →
      g.boxes[idx]? = some sentinelBox) ∧
    (∀ (pos size : Vec2) (bias : ℚ), -100 ≤ pos.x - bias →
      sentinelBox.hit pos size bias = false) := by
  refine ⟨fun g idx => ⟨rfl, by simp [BoxGrid.destroyBox]⟩, ?_,
    fun pos size bias h => sentinel_hit_false pos size bias h⟩
  intro g idx h1 h2
  unfold BoxGrid.boxes generateVertices
  exact genRows_getElem_skipped g.skippedBoxes g.boxSize g.margin g.position.x g.countX
    g.countY g.position.y 0 idx h2 (by simpa using h1)

/-- Witness for the amended C5: destroying cell 37 of the game grid puts the
sentinel at index 37, and an in-world probe at the origin cannot hit it. -/
theorem destroyed_set_monotone_and_unhittable_witness :
    (gameGrid.destroyBox 37).boxes[37]? = some sentinelBox ∧
    sentinelBox.hit ⟨0, 0⟩ ⟨0.1, 0.1⟩ 0.02 = false :=
  ⟨destroyed_set_monotone_and_unhittable.2.1 (gameGrid.destroyBox 37) 37
      (of_decide_eq_true (by with_unfolding_all rfl))
      (of_decide_eq_true (by with_unfolding_all rfl)),
    destroyed_set_monotone_and_unhittable.2.2 ⟨0, 0⟩ ⟨0.1, 0.1⟩ 0.02
      (of_decide_eq_true (by with_unfolding_all rfl))⟩

/-- C6 counterexample: after destroying index 37 of the 10 by 7 grid, the
cells remaining in place number 69, not the 62 the claim states. -/
theorem grid_remaining_cells_69 :
    ((gameGrid.destroyBox 37).boxes.countP (fun b => decide (¬b = sentinelBox))) = 69 ∧
    ((gameGrid.destroyBox 37).boxes.countP (fun b => decide (¬b = sentinelBox))) ≠ 62 :=
  ⟨by with_unfolding_all rfl, of_decide_eq_true (by with_unfolding_all rfl)⟩

/-- C6 amended: the 10 by 7 grid of createResources has 70 cells, none at
the sentinel; destroying cell 37 and rebuilding replaces exactly the cell
at index 37 with the off-screen sentinel (so exactly one cell sits at the
sentinel) and leaves the remaining 69 cells exactly as they were. -/
theorem destroy37_rebuild :
    gameGrid.boxes.length = 70 ∧
    (gameGrid.destroyBox 37).boxes = gameGrid.boxes.set 37 sentinelBox ∧
    sentinelBox ∉ gameGrid.boxes ∧
    ((gameGrid.destroyBox 37).boxes.countP (fun b => decide (b = sentinelBox))) = 1 ∧
    ((gameGrid.destroyBox 37).boxes.countP (fun b => decide (¬b = sentinelBox))) = 69 :=
  ⟨by with_unfolding_all rfl, by with_unfolding_all rfl,
    of_decide_eq_true (by with_unfolding_all rfl),
    by with_unfolding_all rfl, by with_unfolding_all rfl⟩

/-- Witness for C10: the hit test on a concrete cell gives the same answer
for two different size arguments. -/
theorem hit_ignores_size_witness :
    Box.hit (mkGridBox 0 0 ⟨0.5, 0.5⟩) ⟨0, 0⟩ ⟨0.1, 0.1⟩ 0.02 =
      Box.hit (mkGridBox 0 0 ⟨0.5, 0.5⟩) ⟨0, 0⟩ ⟨3, 3⟩ 0.02 :=
  hit_ignores_size (mkGridBox 0 0 ⟨0.5, 0.5⟩) ⟨0, 0⟩ ⟨0.1, 0.1⟩ ⟨3, 3⟩ 0.02
